import Mathlib

/-!
Verification of the validators in `coalaip/model_validators.py`.

The module validates field mappings (Python dicts from string keys to
arbitrary values) used to build COALA IP entities.  We embed Python
runtime values as an inductive type `PyVal`, mappings as association
lists, and each validator as a function returning `Except PyErr Unit`:
`Except.ok ()` models the validator returning silently and
`Except.error e` models it raising the exception `e`.

Python-specific points reproduced faithfully:
  * `dict.get(k)` yields the `None` object when the key is absent, so
    `pyGet` defaults to `PyVal.none`;
  * `isinstance(v, str)` holds exactly for text strings (`isStr`);
  * `x is False` / `x is True` are identity tests against the boolean
    singletons, which in this value universe coincide with equality to
    `PyVal.bool false` / `PyVal.bool true` (the ints `0`/`1` and the
    strings are distinct objects);
  * error messages are rebuilt character-for-character from the
    `str.format` templates, including the escaped `\x7b\x7bavoid_keys\x7d\x7d`
    placeholder in `does_not_contain` (which therefore appears literally
    in the produced message) and the missing closing quote in the
    `isManifestation` message of `is_work_model`.
-/

/-- Embedded Python runtime values, as far as the validators can
distinguish them: the `None` singleton, booleans, integers, text
strings, and callables (carrying an arity, which no validator ever
inspects).  -/
inductive PyVal where
  | none : PyVal
  | bool : Bool → PyVal
  | int : Int → PyVal
  | str : String → PyVal
  | func : Nat → PyVal
  deriving DecidableEq

/-- A field mapping: an association list from string keys to values.
Python dicts have unique keys; lookups below use the first binding, so
duplicate-free lists model dicts exactly.  -/
abbrev Mapping := List (String × PyVal)

/-- Python `str(v)`, as interpolated into error messages.  -/
def pyStr : PyVal → String
  | PyVal.none => "None"
  | PyVal.bool true => "True"
  | PyVal.bool false => "False"
  | PyVal.int n => toString n
  | PyVal.str s => s
  | PyVal.func n => "<function/" ++ toString n ++ ">"

/-- Python `value.get(k)`: the stored value, or the `None` object when
the key is absent.  -/
def pyGet (m : Mapping) (k : String) : PyVal :=
  (m.lookup k).getD PyVal.none

/-- Python `value.get(k, d)` with an explicit default.  -/
def pyGetD (m : Mapping) (k : String) (d : PyVal) : PyVal :=
  (m.lookup k).getD d

/-- Python `k in value`.  -/
def pyContains (m : Mapping) (k : String) : Bool :=
  (m.lookup k).isSome

/-- Python `isinstance(v, str)`.  -/
def isStr : PyVal → Bool
  | PyVal.str _ => true
  | _ => false

/-- Python `callable(v)`.  -/
def isCallableV : PyVal → Bool
  | PyVal.func _ => true
  | _ => false

/-- The exception kinds the module raises: `ModelDataError`,
`TypeError` and the default `ValueError` of `does_not_contain`, each
carrying its message.  -/
inductive PyErr where
  | modelDataError : String → PyErr
  | typeError : String → PyErr
  | valueError : String → PyErr
  deriving DecidableEq

/-- Whether a validator run accepted the value (returned silently).  -/
def passes (r : Except PyErr Unit) : Bool :=
  match r with
  | Except.ok _ => true
  | Except.error _ => false

/-- The message template shared by the string-typed field checks in
`is_creation_model`, `is_right_model` and `is_copyright_model`:
`"'{key}' must be given as a string in the '{attr}' parameter of a
'{cls}'. Given '{value}'"`.  -/
def strFieldErrMsg (key cls attr : String) (v : PyVal) : String :=
  "\x27" ++ key ++ "\x27 must be given as a string in the \x27" ++ attr ++
    "\x27 parameter of a \x27" ++ cls ++ "\x27. Given \x27" ++ pyStr v ++ "\x27"

/-- The `manifestationOfWork`-forbidden message of `is_work_model`.  -/
def workMowErrMsg (cls attr : String) : String :=
  "\x27manifestationOfWork\x27 must not be given in the \x27" ++ attr ++
    "\x27 parameter of a \x27" ++ cls ++ "\x27"

/-- The `isManifestation` message of `is_work_model`.  The source
template ends in `Given '{value}` without a closing quote; we reproduce
that.  -/
def workIsManErrMsg (cls attr : String) (v : PyVal) : String :=
  "\x27isManifestation\x27 must be False if given in the \x27" ++ attr ++
    "\x27 parameter of a \x27" ++ cls ++ "\x27. Given \x27" ++ pyStr v

/-- The required-`manifestationOfWork` message of
`is_manifestation_model`.  -/
def manMowErrMsg (cls attr : String) (v : PyVal) : String :=
  "\x27manifestationOfWork\x27 must be given as a string in the \x27" ++ attr ++
    "\x27 parameter of a \x27" ++ cls ++ "\x27. Given \x27" ++ pyStr v ++ "\x27"

/-- The `isManifestation` message of `is_manifestation_model`.  -/
def manIsManErrMsg (cls attr : String) (v : PyVal) : String :=
  "\x27isManifestation\x27 must be True if given in the \x27" ++ attr ++
    "\x27 parameter of a \x27" ++ cls ++ "\x27. Given \x27" ++ pyStr v ++ "\x27"

/-- The message raised by the `does_not_contain` combinator.  The
source template escapes the braces around `avoid_keys`
(`\x7b\x7bavoid_keys\x7d\x7d`), so the formatted message contains the literal
text `\x7bavoid_keys\x7d`; the joined key list (`avoid_keys_str`) is computed
by the source but never interpolated.  -/
def dncMsg (numMatched : Nat) (attr cls : String) : String :=
  "Given keys (" ++ toString numMatched ++
    " of \x7bavoid_keys\x7d that must not be given in the \x27" ++ attr ++
    "\x27 of a \x27" ++ cls ++ "\x27"

/-- `is_callable(instance, attribute, value)`: raises `TypeError` when
the value is not callable.  Only `attribute.name` is used.  -/
def is_callable (attr : String) (v : PyVal) : Except PyErr Unit :=
  if isCallableV v then Except.ok ()
  else Except.error (PyErr.typeError ("\x27" ++ attr ++ "\x27 must be callable"))

/-- `does_not_contain(*avoid_keys, error_cls)` applied to a wrapped
validator `f`: counts `len(set(avoid_keys) & value.keys())`; when
positive it raises `error_cls` with `dncMsg`, otherwise it delegates to
`f` with the original arguments.  -/
def does_not_contain (avoidKeys : List String) (errCls : String → PyErr)
    (f : String → String → Mapping → Except PyErr Unit)
    (cls attr : String) (value : Mapping) : Except PyErr Unit :=
  if 0 < (avoidKeys.dedup.filter (fun k => pyContains value k)).length then
    Except.error (errCls
      (dncMsg (avoidKeys.dedup.filter (fun k => pyContains value k)).length attr cls))
  else f cls attr value

/-- `is_creation_model`: `value.get('name')` must be a string.  -/
def is_creation_model (cls attr : String) (value : Mapping) : Except PyErr Unit :=
  if isStr (pyGet value "name") then Except.ok ()
  else Except.error (PyErr.modelDataError
    (strFieldErrMsg "name" cls attr (pyGet value "name")))

/-- `is_work_model`: first runs `is_creation_model` (propagating its
exception), then rejects a present `manifestationOfWork` key, then
rejects `value.get('isManifestation', False) is not False`.  -/
def is_work_model (cls attr : String) (value : Mapping) : Except PyErr Unit :=
  match is_creation_model cls attr value with
  | Except.error e => Except.error e
  | Except.ok _ =>
    if pyContains value "manifestationOfWork" then
      Except.error (PyErr.modelDataError (workMowErrMsg cls attr))
    else if pyGetD value "isManifestation" (PyVal.bool false) ≠ PyVal.bool false then
      Except.error (PyErr.modelDataError
        (workIsManErrMsg cls attr (pyGetD value "isManifestation" (PyVal.bool false))))
    else Except.ok ()

/-- `is_manifestation_model`: first runs `is_creation_model`, then
requires `value.get('manifestationOfWork')` to be a string, then
rejects `value.get('isManifestation', True) is not True`.  -/
def is_manifestation_model (cls attr : String) (value : Mapping) : Except PyErr Unit :=
  match is_creation_model cls attr value with
  | Except.error e => Except.error e
  | Except.ok _ =>
    if isStr (pyGet value "manifestationOfWork") then
      if pyGetD value "isManifestation" (PyVal.bool true) ≠ PyVal.bool true then
        Except.error (PyErr.modelDataError
          (manIsManErrMsg cls attr (pyGetD value "isManifestation" (PyVal.bool true))))
      else Except.ok ()
    else Except.error (PyErr.modelDataError
      (manMowErrMsg cls attr (pyGet value "manifestationOfWork")))

/-- The loop body of the undecorated `is_right_model`:
`for key in ['allowedBy', 'license']`, each `value.get(key)` must be a
string, raising at the first failure.  -/
def checkStrKeys (cls attr : String) (value : Mapping) : List String → Except PyErr Unit
  | [] => Except.ok ()
  | k :: ks =>
    if isStr (pyGet value k) then checkStrKeys cls attr value ks
    else Except.error (PyErr.modelDataError (strFieldErrMsg k cls attr (pyGet value k)))

/-- The function body that `@does_not_contain('rightsOf', ...)`
decorates in `is_right_model`.  -/
def is_right_model_inner (cls attr : String) (value : Mapping) : Except PyErr Unit :=
  checkStrKeys cls attr value ["allowedBy", "license"]

/-- `is_right_model` as callers see it: the `does_not_contain`
decorator with forbidden key `rightsOf` and `error_cls=ModelDataError`,
wrapped around the string checks on `allowedBy` and `license`.  -/
def is_right_model : String → String → Mapping → Except PyErr Unit :=
  does_not_contain ["rightsOf"] PyErr.modelDataError is_right_model_inner

/-- The function body that `@does_not_contain('allowedBy', ...)`
decorates in `is_copyright_model`.  -/
def is_copyright_model_inner (cls attr : String) (value : Mapping) : Except PyErr Unit :=
  if isStr (pyGet value "rightsOf") then Except.ok ()
  else Except.error (PyErr.modelDataError
    (strFieldErrMsg "rightsOf" cls attr (pyGet value "rightsOf")))

/-- `is_copyright_model` as callers see it: forbidden key `allowedBy`,
then `rightsOf` must be a string.  -/
def is_copyright_model : String → String → Mapping → Except PyErr Unit :=
  does_not_contain ["allowedBy"] PyErr.modelDataError is_copyright_model_inner

example : passes (is_work_model "Work" "data" [("name", PyVal.str "Song A")]) = true := by
  decide

example :
    passes (is_work_model "Work" "data"
      [("name", PyVal.str "Song A"), ("manifestationOfWork", PyVal.str "abc123")]) = false := by
  decide

example :
    passes (is_manifestation_model "Manifestation" "data"
      [("name", PyVal.str "Recording"), ("manifestationOfWork", PyVal.str "abc123"),
        ("isManifestation", PyVal.bool true)]) = true := by
  decide

example :
    is_right_model "Right" "data"
      [("allowedBy", PyVal.str "right-1"), ("license", PyVal.str "MIT"),
        ("rightsOf", PyVal.str "work-9")]
      = Except.error (PyErr.modelDataError (dncMsg 1 "data" "Right")) := by
  rfl

example : passes (is_copyright_model "Copyright" "data" [("rightsOf", PyVal.str "work-9")]) = true := by
  decide

example :
    passes (is_copyright_model "Copyright" "data"
      [("rightsOf", PyVal.str "work-9"), ("allowedBy", PyVal.str "right-1")]) = false := by
  decide

example : is_callable "validator" (PyVal.int 42)
    = Except.error (PyErr.typeError "\x27validator\x27 must be callable") := by
  rfl

theorem isStr_iff (v : PyVal) : isStr v = true ↔ ∃ s, v = PyVal.str s := by
  cases v <;> simp [isStr]

theorem pyGet_str_iff (m : Mapping) (k : String) :
    isStr (pyGet m k) = true ↔ ∃ s, m.lookup k = some (PyVal.str s) := by
  unfold pyGet
  cases h : m.lookup k with
  | none => simp [isStr]
  | some v => cases v <;> simp [isStr]

theorem pyContains_false_iff (m : Mapping) (k : String) :
    pyContains m k = false ↔ m.lookup k = none := by
  unfold pyContains
  cases m.lookup k <;> simp

theorem pyContains_true_iff (m : Mapping) (k : String) :
    pyContains m k = true ↔ ∃ v, m.lookup k = some v := by
  unfold pyContains
  cases m.lookup k <;> simp

theorem creation_ok_iff (cls attr : String) (m : Mapping) :
    is_creation_model cls attr m = Except.ok () ↔
      ∃ s, m.lookup "name" = some (PyVal.str s) := by
  rw [← pyGet_str_iff]
  unfold is_creation_model
  split <;> simp_all

theorem creation_error (cls attr : String) (m : Mapping)
    (h : ∀ s, m.lookup "name" ≠ some (PyVal.str s)) :
    is_creation_model cls attr m =
      Except.error (PyErr.modelDataError
        (strFieldErrMsg "name" cls attr (pyGet m "name"))) := by
  have hf : isStr (pyGet m "name") = false := by
    cases hb : isStr (pyGet m "name")
    · rfl
    · obtain ⟨s, hs⟩ := (pyGet_str_iff m "name").mp hb
      exact absurd hs (h s)
  unfold is_creation_model
  simp [hf]

theorem creation_error_kind (cls attr : String) (m : Mapping) (e : PyErr)
    (h : is_creation_model cls attr m = Except.error e) :
    ∃ msg, e = PyErr.modelDataError msg := by
  unfold is_creation_model at h
  split at h
  · exact absurd h (by simp)
  · exact ⟨_, (Except.error.inj h).symm⟩

theorem work_of_creation_ok (cls attr : String) (m : Mapping)
    (h : is_creation_model cls attr m = Except.ok ()) :
    is_work_model cls attr m =
      (if pyContains m "manifestationOfWork" then
        Except.error (PyErr.modelDataError (workMowErrMsg cls attr))
      else if pyGetD m "isManifestation" (PyVal.bool false) ≠ PyVal.bool false then
        Except.error (PyErr.modelDataError
          (workIsManErrMsg cls attr (pyGetD m "isManifestation" (PyVal.bool false))))
      else Except.ok ()) := by
  unfold is_work_model
  rw [h]

theorem work_of_creation_error (cls attr : String) (m : Mapping) (e : PyErr)
    (h : is_creation_model cls attr m = Except.error e) :
    is_work_model cls attr m = Except.error e := by
  unfold is_work_model
  rw [h]

/-- Claim C1: the creation-shape validator raises a model-data error
iff the key `name` is missing or its value is not a string, and returns
silently on every mapping whose `name` value is a string.  -/
theorem claim_C1_creation_shape (cls attr : String) (m : Mapping) :
    (is_creation_model cls attr m = Except.ok () ↔
      ∃ s, m.lookup "name" = some (PyVal.str s))
    ∧ (∀ e, is_creation_model cls attr m = Except.error e →
        ∃ msg, e = PyErr.modelDataError msg)
    ∧ ((∀ s, m.lookup "name" ≠ some (PyVal.str s)) →
        ∃ msg, is_creation_model cls attr m =
          Except.error (PyErr.modelDataError msg)) := by
  refine ⟨creation_ok_iff cls attr m, ?_, ?_⟩
  · intro e he
    exact creation_error_kind cls attr m e he
  · intro h
    exact ⟨_, creation_error cls attr m h⟩

theorem claim_C1_witness :
    is_creation_model "Work" "data" [("name", PyVal.str "Song A")] = Except.ok () :=
  (claim_C1_creation_shape "Work" "data" [("name", PyVal.str "Song A")]).1.mpr
    ⟨"Song A", by decide⟩

/-- Claim C2: on mappings with a string `name`, the work-shape
validator raises a model-data error exactly when `manifestationOfWork`
is present (any value) or `isManifestation` is present with a value not
identical to `False`; every raised error is a model-data error; the
creation-shape check runs first (a failing `name` check yields exactly
the creation-shape outcome), and the `manifestationOfWork` check runs
before the `isManifestation` check (a present `manifestationOfWork`
yields its error regardless of `isManifestation`).  -/
theorem claim_C2_work_shape (cls attr : String) (m : Mapping) :
    ((∃ s, m.lookup "name" = some (PyVal.str s)) →
      (is_work_model cls attr m = Except.ok () ↔
        (m.lookup "manifestationOfWork" = none ∧
          (m.lookup "isManifestation" = none ∨
            m.lookup "isManifestation" = some (PyVal.bool false)))))
    ∧ (∀ e, is_work_model cls attr m = Except.error e →
        ∃ msg, e = PyErr.modelDataError msg)
    ∧ ((∀ s, m.lookup "name" ≠ some (PyVal.str s)) →
        is_work_model cls attr m = is_creation_model cls attr m)
    ∧ ((∃ s, m.lookup "name" = some (PyVal.str s)) →
        pyContains m "manifestationOfWork" = true →
        is_work_model cls attr m =
          Except.error (PyErr.modelDataError (workMowErrMsg cls attr))) := by
  refine ⟨?_, ?_, ?_, ?_⟩
  · intro hex
    have hcr := (creation_ok_iff cls attr m).mpr hex
    rw [work_of_creation_ok cls attr m hcr]
    by_cases hc : pyContains m "manifestationOfWork" = true
    · obtain ⟨v, hv⟩ := (pyContains_true_iff m "manifestationOfWork").mp hc
      simp [hc, hv]
    · have hmow : m.lookup "manifestationOfWork" = none :=
        (pyContains_false_iff m "manifestationOfWork").mp (by simpa using hc)
      simp only [hc, if_false, hmow, true_and]
      cases hi : m.lookup "isManifestation" with
      | none => simp [pyGetD, hi]
      | some v =>
        by_cases hv : v = PyVal.bool false
        · simp [pyGetD, hi, hv]
        · simp [pyGetD, hi, hv]
  · intro e he
    cases hcr : is_creation_model cls attr m with
    | error e0 =>
      rw [work_of_creation_error cls attr m e0 hcr] at he
      obtain rfl : e0 = e := Except.error.inj he
      exact creation_error_kind cls attr m e0 hcr
    | ok u =>
      cases u
      rw [work_of_creation_ok cls attr m hcr] at he
      split at he
      · exact ⟨_, (Except.error.inj he).symm⟩
      · split at he
        · exact ⟨_, (Except.error.inj he).symm⟩
        · exact absurd he (by simp)
  · intro h
    cases hcr : is_creation_model cls attr m with
    | error e0 =>
      exact work_of_creation_error cls attr m e0 hcr
    | ok u =>
      cases u
      obtain ⟨s, hs⟩ := (creation_ok_iff cls attr m).mp hcr
      exact absurd hs (h s)
  · intro hex hc
    have hcr := (creation_ok_iff cls attr m).mpr hex
    rw [work_of_creation_ok cls attr m hcr]
    simp [hc]

theorem claim_C2_witness :
    is_work_model "Work" "data" [("name", PyVal.str "Song A")] = Except.ok () :=
  ((claim_C2_work_shape "Work" "data" [("name", PyVal.str "Song A")]).1
    ⟨"Song A", by decide⟩).mpr ⟨by decide, Or.inl (by decide)⟩

theorem man_of_creation_ok (cls attr : String) (m : Mapping)
    (h : is_creation_model cls attr m = Except.ok ()) :
    is_manifestation_model cls attr m =
      (if isStr (pyGet m "manifestationOfWork") then
        if pyGetD m "isManifestation" (PyVal.bool true) ≠ PyVal.bool true then
          Except.error (PyErr.modelDataError
            (manIsManErrMsg cls attr (pyGetD m "isManifestation" (PyVal.bool true))))
        else Except.ok ()
      else Except.error (PyErr.modelDataError
        (manMowErrMsg cls attr (pyGet m "manifestationOfWork")))) := by
  unfold is_manifestation_model
  rw [h]

theorem man_of_creation_error (cls attr : String) (m : Mapping) (e : PyErr)
    (h : is_creation_model cls attr m = Except.error e) :
    is_manifestation_model cls attr m = Except.error e := by
  unfold is_manifestation_model
  rw [h]

/-- Claim C3: the manifestation-shape validator passes exactly when
`name` is a string, `manifestationOfWork` is present with a string
value, and `isManifestation` is absent or identical to `True`; in every
other case it raises a model-data error.  -/
theorem claim_C3_manifestation_shape (cls attr : String) (m : Mapping) :
    (is_manifestation_model cls attr m = Except.ok () ↔
      ((∃ s, m.lookup "name" = some (PyVal.str s)) ∧
        (∃ t, m.lookup "manifestationOfWork" = some (PyVal.str t)) ∧
        (m.lookup "isManifestation" = none ∨
          m.lookup "isManifestation" = some (PyVal.bool true))))
    ∧ (∀ e, is_manifestation_model cls attr m = Except.error e →
        ∃ msg, e = PyErr.modelDataError msg) := by
  constructor
  · cases hcr : is_creation_model cls attr m with
    | error e0 =>
      have hnex : ¬ ∃ s, m.lookup "name" = some (PyVal.str s) := by
        intro hex
        rw [(creation_ok_iff cls attr m).mpr hex] at hcr
        exact Except.noConfusion hcr
      simp [man_of_creation_error cls attr m e0 hcr, hnex]
    | ok u =>
      cases u
      rw [man_of_creation_ok cls attr m hcr]
      have hex := (creation_ok_iff cls attr m).mp hcr
      simp only [hex, true_and]
      by_cases hmo : isStr (pyGet m "manifestationOfWork") = true
      · have hmo' := (pyGet_str_iff m "manifestationOfWork").mp hmo
        simp only [hmo, if_true, hmo', true_and]
        cases hi : m.lookup "isManifestation" with
        | none => simp [pyGetD, hi]
        | some v =>
          by_cases hv : v = PyVal.bool true
          · simp [pyGetD, hi, hv]
          · simp [pyGetD, hi, hv]
      · have hnt : ∀ t, m.lookup "manifestationOfWork" ≠ some (PyVal.str t) := by
          intro t ht
          exact hmo ((pyGet_str_iff m "manifestationOfWork").mpr ⟨t, ht⟩)
        simp [hmo, hnt]
  · intro e he
    cases hcr : is_creation_model cls attr m with
    | error e0 =>
      rw [man_of_creation_error cls attr m e0 hcr] at he
      obtain rfl : e0 = e := Except.error.inj he
      exact creation_error_kind cls attr m e0 hcr
    | ok u =>
      cases u
      rw [man_of_creation_ok cls attr m hcr] at he
      split at he
      · split at he
        · exact ⟨_, (Except.error.inj he).symm⟩
        · exact absurd he (by simp)
      · exact ⟨_, (Except.error.inj he).symm⟩

theorem claim_C3_witness :
    is_manifestation_model "Manifestation" "data"
      [("name", PyVal.str "Recording"), ("manifestationOfWork", PyVal.str "abc123"),
        ("isManifestation", PyVal.bool true)] = Except.ok () :=
  (claim_C3_manifestation_shape "Manifestation" "data"
    [("name", PyVal.str "Recording"), ("manifestationOfWork", PyVal.str "abc123"),
      ("isManifestation", PyVal.bool true)]).1.mpr
    ⟨⟨"Recording", by decide⟩, ⟨"abc123", by decide⟩, Or.inr (by decide)⟩

theorem pyGet_not_str (m : Mapping) (k : String) (h : isStr (pyGet m k) = false) :
    ∀ s, m.lookup k ≠ some (PyVal.str s) := by
  intro s hs
  rw [(pyGet_str_iff m k).mpr ⟨s, hs⟩] at h
  exact Bool.noConfusion h

theorem dnc_single_present (k : String) (errCls : String → PyErr)
    (f : String → String → Mapping → Except PyErr Unit)
    (cls attr : String) (m : Mapping) (h : pyContains m k = true) :
    does_not_contain [k] errCls f cls attr m =
      Except.error (errCls (dncMsg 1 attr cls)) := by
  unfold does_not_contain
  simp [h]

theorem dnc_single_absent (k : String) (errCls : String → PyErr)
    (f : String → String → Mapping → Except PyErr Unit)
    (cls attr : String) (m : Mapping) (h : pyContains m k = false) :
    does_not_contain [k] errCls f cls attr m = f cls attr m := by
  unfold does_not_contain
  simp [h]

theorem checkStrKeys_error_kind (cls attr : String) (m : Mapping)
    (ks : List String) (e : PyErr)
    (h : checkStrKeys cls attr m ks = Except.error e) :
    ∃ msg, e = PyErr.modelDataError msg := by
  induction ks with
  | nil => simp [checkStrKeys] at h
  | cons k ks ih =>
    unfold checkStrKeys at h
    split at h
    · exact ih h
    · exact ⟨_, (Except.error.inj h).symm⟩

theorem right_inner_ok_iff (cls attr : String) (m : Mapping) :
    is_right_model_inner cls attr m = Except.ok () ↔
      ((∃ s, m.lookup "allowedBy" = some (PyVal.str s)) ∧
        (∃ t, m.lookup "license" = some (PyVal.str t))) := by
  by_cases h1 : isStr (pyGet m "allowedBy") = true
  · by_cases h2 : isStr (pyGet m "license") = true
    · simp [is_right_model_inner, checkStrKeys, h1, h2,
        (pyGet_str_iff m "allowedBy").mp h1, (pyGet_str_iff m "license").mp h2]
    · have h2f : isStr (pyGet m "license") = false := by simpa using h2
      simp [is_right_model_inner, checkStrKeys, h1, h2f,
        pyGet_not_str m "license" h2f]
  · have h1f : isStr (pyGet m "allowedBy") = false := by simpa using h1
    simp [is_right_model_inner, checkStrKeys, h1f,
      pyGet_not_str m "allowedBy" h1f]

theorem copyright_inner_ok_iff (cls attr : String) (m : Mapping) :
    is_copyright_model_inner cls attr m = Except.ok () ↔
      ∃ s, m.lookup "rightsOf" = some (PyVal.str s) := by
  rw [← pyGet_str_iff]
  unfold is_copyright_model_inner
  split <;> simp_all

/-- Claim C4: the right-shape validator (the forbidden-keys-wrapped
`is_right_model`) raises a model-data error on every mapping containing
`rightsOf`, producing the wrapper's error regardless of the `allowedBy`
and `license` fields (so before evaluating them); without `rightsOf` it
raises iff `allowedBy` or `license` is missing or non-string, and
passes when both are strings; every raised error is a model-data
error.  -/
theorem claim_C4_right_shape (cls attr : String) (m : Mapping) :
    (pyContains m "rightsOf" = true →
      is_right_model cls attr m =
        Except.error (PyErr.modelDataError (dncMsg 1 attr cls)))
    ∧ (pyContains m "rightsOf" = false →
        (is_right_model cls attr m = Except.ok () ↔
          ((∃ s, m.lookup "allowedBy" = some (PyVal.str s)) ∧
            (∃ t, m.lookup "license" = some (PyVal.str t)))))
    ∧ (∀ e, is_right_model cls attr m = Except.error e →
        ∃ msg, e = PyErr.modelDataError msg) := by
  refine ⟨?_, ?_, ?_⟩
  · intro h
    unfold is_right_model
    exact dnc_single_present "rightsOf" PyErr.modelDataError is_right_model_inner
      cls attr m h
  · intro h
    have hd : is_right_model cls attr m = is_right_model_inner cls attr m := by
      unfold is_right_model
      exact dnc_single_absent "rightsOf" PyErr.modelDataError is_right_model_inner
        cls attr m h
    rw [hd]
    exact right_inner_ok_iff cls attr m
  · intro e he
    cases hc : pyContains m "rightsOf" with
    | true =>
      have hd : is_right_model cls attr m =
          Except.error (PyErr.modelDataError (dncMsg 1 attr cls)) := by
        unfold is_right_model
        exact dnc_single_present "rightsOf" PyErr.modelDataError is_right_model_inner
          cls attr m hc
      rw [hd] at he
      exact ⟨_, (Except.error.inj he).symm⟩
    | false =>
      have hd : is_right_model cls attr m = is_right_model_inner cls attr m := by
        unfold is_right_model
        exact dnc_single_absent "rightsOf" PyErr.modelDataError is_right_model_inner
          cls attr m hc
      rw [hd] at he
      exact checkStrKeys_error_kind cls attr m ["allowedBy", "license"] e he

theorem claim_C4_witness :
    is_right_model "Right" "data"
      [("allowedBy", PyVal.str "right-1"), ("license", PyVal.str "MIT"),
        ("rightsOf", PyVal.str "work-9")]
      = Except.error (PyErr.modelDataError (dncMsg 1 "data" "Right")) :=
  (claim_C4_right_shape "Right" "data"
    [("allowedBy", PyVal.str "right-1"), ("license", PyVal.str "MIT"),
      ("rightsOf", PyVal.str "work-9")]).1 (by decide)

/-- Claim C5: the copyright-shape validator (the forbidden-keys-wrapped
`is_copyright_model`) raises a model-data error on every mapping
containing `allowedBy`, producing the wrapper's error regardless of the
`rightsOf` field (so before the field check runs); without `allowedBy`
it raises iff `rightsOf` is missing or non-string and passes when
`rightsOf` is a string; every raised error is a model-data error.  -/
theorem claim_C5_copyright_shape (cls attr : String) (m : Mapping) :
    (pyContains m "allowedBy" = true →
      is_copyright_model cls attr m =
        Except.error (PyErr.modelDataError (dncMsg 1 attr cls)))
    ∧ (pyContains m "allowedBy" = false →
        (is_copyright_model cls attr m = Except.ok () ↔
          ∃ s, m.lookup "rightsOf" = some (PyVal.str s)))
    ∧ (∀ e, is_copyright_model cls attr m = Except.error e →
        ∃ msg, e = PyErr.modelDataError msg) := by
  refine ⟨?_, ?_, ?_⟩
  · intro h
    unfold is_copyright_model
    exact dnc_single_present "allowedBy" PyErr.modelDataError is_copyright_model_inner
      cls attr m h
  · intro h
    have hd : is_copyright_model cls attr m = is_copyright_model_inner cls attr m := by
      unfold is_copyright_model
      exact dnc_single_absent "allowedBy" PyErr.modelDataError is_copyright_model_inner
        cls attr m h
    rw [hd]
    exact copyright_inner_ok_iff cls attr m
  · intro e he
    cases hc : pyContains m "allowedBy" with
    | true =>
      have hd : is_copyright_model cls attr m =
          Except.error (PyErr.modelDataError (dncMsg 1 attr cls)) := by
        unfold is_copyright_model
        exact dnc_single_present "allowedBy" PyErr.modelDataError is_copyright_model_inner
          cls attr m hc
      rw [hd] at he
      exact ⟨_, (Except.error.inj he).symm⟩
    | false =>
      have hd : is_copyright_model cls attr m = is_copyright_model_inner cls attr m := by
        unfold is_copyright_model
        exact dnc_single_absent "allowedBy" PyErr.modelDataError is_copyright_model_inner
          cls attr m hc
      rw [hd] at he
      unfold is_copyright_model_inner at he
      split at he
      · exact absurd he (by simp)
      · exact ⟨_, (Except.error.inj he).symm⟩

theorem claim_C5_witness :
    is_copyright_model "Copyright" "data" [("rightsOf", PyVal.str "work-9")]
      = Except.ok () :=
  ((claim_C5_copyright_shape "Copyright" "data"
    [("rightsOf", PyVal.str "work-9")]).2.1 (by decide)).mpr ⟨"work-9", by decide⟩

set_option maxRecDepth 100000 in
/-- Claim C6 (code bug at the message): on a mapping containing the
forbidden key, the combinator raises the configured error kind before
delegating (here the wrapped validator would accept), and the message
carries the match count, the attribute name and the owning class name;
but where the spec says the found forbidden keys are listed, the
message contains the literal placeholder text `\x7bavoid_keys\x7d` — the
source template escapes the braces, so the joined key list it computes
is never interpolated and the key `rightsOf` does not appear.  -/
theorem claim_C6_message_bug :
    does_not_contain ["rightsOf"] PyErr.modelDataError
        (fun _ _ _ => Except.ok ()) "Right" "data" [("rightsOf", PyVal.str "work-9")]
      = Except.error (PyErr.modelDataError (dncMsg 1 "data" "Right"))
    ∧ dncMsg 1 "data" "Right"
      = "Given keys (1 of \x7bavoid_keys\x7d that must not be given in the \x27data\x27 of a \x27Right\x27"
    ∧ List.IsInfix "\x7bavoid_keys\x7d".data (dncMsg 1 "data" "Right").data
    ∧ ¬ List.IsInfix "rightsOf".data (dncMsg 1 "data" "Right").data := by
  refine ⟨by rfl, by rfl, by decide, by decide⟩

/-- Claim C7: the `isManifestation` checks are strict identity
comparisons against `False`/`True`, not truthiness coercions: on a
mapping that otherwise satisfies the work-shape (string `name`, no
`manifestationOfWork`) or the manifestation-shape (string `name`,
string `manifestationOfWork`), an `isManifestation` value of `1`, `0`
or the string `"true"` is rejected with a model-data error.  -/
theorem claim_C7_strict_identity (cls attr : String) (m : Mapping) (v : PyVal)
    (hv : v = PyVal.int 1 ∨ v = PyVal.int 0 ∨ v = PyVal.str "true")
    (hman : m.lookup "isManifestation" = some v) :
    ((∃ s, m.lookup "name" = some (PyVal.str s)) →
      m.lookup "manifestationOfWork" = none →
      ∃ msg, is_work_model cls attr m = Except.error (PyErr.modelDataError msg))
    ∧ ((∃ s, m.lookup "name" = some (PyVal.str s)) →
      (∃ t, m.lookup "manifestationOfWork" = some (PyVal.str t)) →
      ∃ msg, is_manifestation_model cls attr m = Except.error (PyErr.modelDataError msg)) := by
  constructor
  · intro hex hmow
    have hcr := (creation_ok_iff cls attr m).mpr hex
    have hvne : pyGetD m "isManifestation" (PyVal.bool false) ≠ PyVal.bool false := by
      unfold pyGetD
      rw [hman]
      rcases hv with h | h | h <;> subst h <;> simp
    have hcf : pyContains m "manifestationOfWork" = false :=
      (pyContains_false_iff m "manifestationOfWork").mpr hmow
    refine ⟨workIsManErrMsg cls attr (pyGetD m "isManifestation" (PyVal.bool false)), ?_⟩
    rw [work_of_creation_ok cls attr m hcr]
    simp [hcf, hvne]
  · intro hex hmow
    obtain ⟨t, ht⟩ := hmow
    have hcr := (creation_ok_iff cls attr m).mpr hex
    have hst : isStr (pyGet m "manifestationOfWork") = true :=
      (pyGet_str_iff m "manifestationOfWork").mpr ⟨t, ht⟩
    have hvne : pyGetD m "isManifestation" (PyVal.bool true) ≠ PyVal.bool true := by
      unfold pyGetD
      rw [hman]
      rcases hv with h | h | h <;> subst h <;> simp
    refine ⟨manIsManErrMsg cls attr (pyGetD m "isManifestation" (PyVal.bool true)), ?_⟩
    rw [man_of_creation_ok cls attr m hcr]
    simp [hst, hvne]

theorem claim_C7_witness :
    ∃ msg, is_work_model "Work" "data"
      [("name", PyVal.str "Song A"), ("isManifestation", PyVal.int 1)]
      = Except.error (PyErr.modelDataError msg) :=
  (claim_C7_strict_identity "Work" "data"
    [("name", PyVal.str "Song A"), ("isManifestation", PyVal.int 1)]
    (PyVal.int 1) (Or.inl rfl) (by decide)).1 ⟨"Song A", by decide⟩ (by decide)

/-- Claim C8: every string-typed field check (`name` in the creation
shape, `manifestationOfWork` in the manifestation shape, `allowedBy`
and `license` in the right shape, `rightsOf` in the copyright shape)
rejects every value that is not a text string — including `None`,
numbers and booleans, all of which satisfy `isStr v = false` — with a
model-data error, whenever control reaches that check.  -/
theorem claim_C8_string_type_checks (cls attr : String) (v : PyVal)
    (hv : isStr v = false) :
    (∀ m : Mapping, m.lookup "name" = some v →
      ∃ msg, is_creation_model cls attr m = Except.error (PyErr.modelDataError msg))
    ∧ (∀ m : Mapping, (∃ s, m.lookup "name" = some (PyVal.str s)) →
        m.lookup "manifestationOfWork" = some v →
        ∃ msg, is_manifestation_model cls attr m = Except.error (PyErr.modelDataError msg))
    ∧ (∀ m : Mapping, m.lookup "rightsOf" = none →
        m.lookup "allowedBy" = some v →
        ∃ msg, is_right_model cls attr m = Except.error (PyErr.modelDataError msg))
    ∧ (∀ m : Mapping, m.lookup "rightsOf" = none →
        (∃ s, m.lookup "allowedBy" = some (PyVal.str s)) →
        m.lookup "license" = some v →
        ∃ msg, is_right_model cls attr m = Except.error (PyErr.modelDataError msg))
    ∧ (∀ m : Mapping, m.lookup "allowedBy" = none →
        m.lookup "rightsOf" = some v →
        ∃ msg, is_copyright_model cls attr m = Except.error (PyErr.modelDataError msg)) := by
  refine ⟨?_, ?_, ?_, ?_, ?_⟩
  · intro m hm
    have hg : isStr (pyGet m "name") = false := by
      unfold pyGet
      rw [hm]
      simpa using hv
    refine ⟨strFieldErrMsg "name" cls attr (pyGet m "name"), ?_⟩
    unfold is_creation_model
    simp [hg]
  · intro m hex hm
    have hcr := (creation_ok_iff cls attr m).mpr hex
    have hg : isStr (pyGet m "manifestationOfWork") = false := by
      unfold pyGet
      rw [hm]
      simpa using hv
    refine ⟨manMowErrMsg cls attr (pyGet m "manifestationOfWork"), ?_⟩
    rw [man_of_creation_ok cls attr m hcr]
    simp [hg]
  · intro m hr ha
    have hg : isStr (pyGet m "allowedBy") = false := by
      unfold pyGet
      rw [ha]
      simpa using hv
    have hd : is_right_model cls attr m = is_right_model_inner cls attr m := by
      unfold is_right_model
      exact dnc_single_absent "rightsOf" PyErr.modelDataError is_right_model_inner
        cls attr m ((pyContains_false_iff m "rightsOf").mpr hr)
    refine ⟨strFieldErrMsg "allowedBy" cls attr (pyGet m "allowedBy"), ?_⟩
    rw [hd]
    simp [is_right_model_inner, checkStrKeys, hg]
  · intro m hr hex hl
    obtain ⟨s, hs⟩ := hex
    have hg1 : isStr (pyGet m "allowedBy") = true :=
      (pyGet_str_iff m "allowedBy").mpr ⟨s, hs⟩
    have hg2 : isStr (pyGet m "license") = false := by
      unfold pyGet
      rw [hl]
      simpa using hv
    have hd : is_right_model cls attr m = is_right_model_inner cls attr m := by
      unfold is_right_model
      exact dnc_single_absent "rightsOf" PyErr.modelDataError is_right_model_inner
        cls attr m ((pyContains_false_iff m "rightsOf").mpr hr)
    refine ⟨strFieldErrMsg "license" cls attr (pyGet m "license"), ?_⟩
    rw [hd]
    simp [is_right_model_inner, checkStrKeys, hg1, hg2]
  · intro m ha hr
    have hg : isStr (pyGet m "rightsOf") = false := by
      unfold pyGet
      rw [hr]
      simpa using hv
    have hd : is_copyright_model cls attr m = is_copyright_model_inner cls attr m := by
      unfold is_copyright_model
      exact dnc_single_absent "allowedBy" PyErr.modelDataError is_copyright_model_inner
        cls attr m ((pyContains_false_iff m "allowedBy").mpr ha)
    refine ⟨strFieldErrMsg "rightsOf" cls attr (pyGet m "rightsOf"), ?_⟩
    rw [hd]
    simp [is_copyright_model_inner, hg]

theorem claim_C8_witness :
    ∃ msg, is_creation_model "Work" "data" [("name", PyVal.none)]
      = Except.error (PyErr.modelDataError msg) :=
  (claim_C8_string_type_checks "Work" "data" PyVal.none (by decide)).1
    [("name", PyVal.none)] (by decide)

/-- Claim C9: the invocability check returns silently iff the value is
callable (any arity is accepted), and on a non-callable value raises a
TypeError-kind error whose message names the attribute; it is a pure
function, so there is no side effect beyond the returned outcome.  -/
theorem claim_C9_is_callable (attr : String) (v : PyVal) :
    (is_callable attr v = Except.ok () ↔ isCallableV v = true)
    ∧ (isCallableV v = false →
        is_callable attr v =
          Except.error (PyErr.typeError ("\x27" ++ attr ++ "\x27 must be callable")))
    ∧ (∀ n : Nat, is_callable attr (PyVal.func n) = Except.ok ()) := by
  refine ⟨?_, ?_, ?_⟩
  · unfold is_callable
    split <;> simp_all
  · intro h
    unfold is_callable
    simp [h]
  · intro n
    unfold is_callable
    simp [isCallableV]

theorem claim_C9_witness :
    is_callable "validator" (PyVal.int 42)
      = Except.error (PyErr.typeError "\x27validator\x27 must be callable") :=
  (claim_C9_is_callable "validator" (PyVal.int 42)).2.1 (by decide)

theorem creation_congr (cls attr : String) (m1 m2 : Mapping)
    (hn : m1.lookup "name" = m2.lookup "name") :
    is_creation_model cls attr m1 = is_creation_model cls attr m2 := by
  simp only [is_creation_model, pyGet, hn]

theorem work_congr (cls attr : String) (m1 m2 : Mapping)
    (hn : m1.lookup "name" = m2.lookup "name")
    (hm : m1.lookup "manifestationOfWork" = m2.lookup "manifestationOfWork")
    (hi : m1.lookup "isManifestation" = m2.lookup "isManifestation") :
    is_work_model cls attr m1 = is_work_model cls attr m2 := by
  simp only [is_work_model, is_creation_model, pyGet, pyGetD, pyContains, hn, hm, hi]

theorem man_congr (cls attr : String) (m1 m2 : Mapping)
    (hn : m1.lookup "name" = m2.lookup "name")
    (hm : m1.lookup "manifestationOfWork" = m2.lookup "manifestationOfWork")
    (hi : m1.lookup "isManifestation" = m2.lookup "isManifestation") :
    is_manifestation_model cls attr m1 = is_manifestation_model cls attr m2 := by
  simp only [is_manifestation_model, is_creation_model, pyGet, pyGetD, pyContains,
    hn, hm, hi]

theorem right_congr (cls attr : String) (m1 m2 : Mapping)
    (ha : m1.lookup "allowedBy" = m2.lookup "allowedBy")
    (hl : m1.lookup "license" = m2.lookup "license")
    (hr : m1.lookup "rightsOf" = m2.lookup "rightsOf") :
    is_right_model cls attr m1 = is_right_model cls attr m2 := by
  have hrc : pyContains m1 "rightsOf" = pyContains m2 "rightsOf" := by
    unfold pyContains
    rw [hr]
  have hinner : is_right_model_inner cls attr m1 = is_right_model_inner cls attr m2 := by
    simp only [is_right_model_inner, checkStrKeys, pyGet, ha, hl]
  cases hc : pyContains m2 "rightsOf" with
  | true =>
    unfold is_right_model
    rw [dnc_single_present "rightsOf" PyErr.modelDataError is_right_model_inner
        cls attr m1 (hrc.trans hc),
      dnc_single_present "rightsOf" PyErr.modelDataError is_right_model_inner
        cls attr m2 hc]
  | false =>
    unfold is_right_model
    rw [dnc_single_absent "rightsOf" PyErr.modelDataError is_right_model_inner
        cls attr m1 (hrc.trans hc),
      dnc_single_absent "rightsOf" PyErr.modelDataError is_right_model_inner
        cls attr m2 hc]
    exact hinner

theorem copyright_congr (cls attr : String) (m1 m2 : Mapping)
    (ha : m1.lookup "allowedBy" = m2.lookup "allowedBy")
    (hr : m1.lookup "rightsOf" = m2.lookup "rightsOf") :
    is_copyright_model cls attr m1 = is_copyright_model cls attr m2 := by
  have hac : pyContains m1 "allowedBy" = pyContains m2 "allowedBy" := by
    unfold pyContains
    rw [ha]
  have hinner : is_copyright_model_inner cls attr m1 = is_copyright_model_inner cls attr m2 := by
    simp only [is_copyright_model_inner, pyGet, hr]
  cases hc : pyContains m2 "allowedBy" with
  | true =>
    unfold is_copyright_model
    rw [dnc_single_present "allowedBy" PyErr.modelDataError is_copyright_model_inner
        cls attr m1 (hac.trans hc),
      dnc_single_present "allowedBy" PyErr.modelDataError is_copyright_model_inner
        cls attr m2 hc]
  | false =>
    unfold is_copyright_model
    rw [dnc_single_absent "allowedBy" PyErr.modelDataError is_copyright_model_inner
        cls attr m1 (hac.trans hc),
      dnc_single_absent "allowedBy" PyErr.modelDataError is_copyright_model_inner
        cls attr m2 hc]
    exact hinner

/-- Claim C10: each entity-shape validator's accept/reject outcome
depends only on the mapping's lookups at the keys it inspects —
`name`, `manifestationOfWork`, `isManifestation` for the creation
family and `allowedBy`, `license`, `rightsOf` for the right family: two
mappings agreeing on those lookups (same presence, same values) either
both pass or both raise, so adding or removing any other key never
changes the outcome.  -/
theorem claim_C10_key_locality (cls attr : String) (m1 m2 : Mapping) :
    ((m1.lookup "name" = m2.lookup "name" ∧
      m1.lookup "manifestationOfWork" = m2.lookup "manifestationOfWork" ∧
      m1.lookup "isManifestation" = m2.lookup "isManifestation") →
      (passes (is_creation_model cls attr m1) = passes (is_creation_model cls attr m2) ∧
        passes (is_work_model cls attr m1) = passes (is_work_model cls attr m2) ∧
        passes (is_manifestation_model cls attr m1)
          = passes (is_manifestation_model cls attr m2)))
    ∧ ((m1.lookup "allowedBy" = m2.lookup "allowedBy" ∧
        m1.lookup "license" = m2.lookup "license" ∧
        m1.lookup "rightsOf" = m2.lookup "rightsOf") →
        (passes (is_right_model cls attr m1) = passes (is_right_model cls attr m2) ∧
          passes (is_copyright_model cls attr m1)
            = passes (is_copyright_model cls attr m2))) := by
  constructor
  · rintro ⟨hn, hm, hi⟩
    refine ⟨?_, ?_, ?_⟩
    · rw [creation_congr cls attr m1 m2 hn]
    · rw [work_congr cls attr m1 m2 hn hm hi]
    · rw [man_congr cls attr m1 m2 hn hm hi]
  · rintro ⟨ha, hl, hr⟩
    refine ⟨?_, ?_⟩
    · rw [right_congr cls attr m1 m2 ha hl hr]
    · rw [copyright_congr cls attr m1 m2 ha hr]

theorem claim_C10_witness :
    passes (is_work_model "Work" "data"
      [("name", PyVal.str "Song A"), ("extra", PyVal.int 7)])
      = passes (is_work_model "Work" "data" [("name", PyVal.str "Song A")]) :=
  ((claim_C10_key_locality "Work" "data"
    [("name", PyVal.str "Song A"), ("extra", PyVal.int 7)]
    [("name", PyVal.str "Song A")]).1 ⟨by decide, by decide, by decide⟩).2.1
